import Mathlib

/-!
Verification of the multi-source fetch-normalize-dedupe-merge pipeline of
`src/collect.py` (a Reddit/YouTube "idea" collector).

The Python source is shallowly embedded:
* JSON values (the payloads parsed from provider responses and the values
  stored in the produced record dicts) are modelled by the `Json` type.
* Python subscripting `d[k]`, `d.get(k, default)` and iteration are modelled
  by `pyGetItem`, `pyGet` and `pyIter`, in the `Except PyExc` monad: a
  `KeyError` is a missing key on a dict, any other failure (`TypeError` /
  `AttributeError` on a non-dict) is kept distinct because the extractors
  catch only `KeyError`.
* The wall clock read by `datetime.now().isoformat()` is passed in as an
  explicit `now : String` argument.
* The network is an oracle `net : Nat → TargetOutcome` giving, for the i-th
  HTTP request of a fetch, either an exception (connection error, timeout,
  unparseable body) or a status code together with the parsed JSON body.
-/

mutual
inductive Json where
  | null
  | bool (b : Bool)
  | num (n : Int)
  | str (s : String)
  | arr (items : JsonList)
  | obj (entries : JsonObj)
deriving DecidableEq

inductive JsonList where
  | nil
  | cons (head : Json) (tail : JsonList)
deriving DecidableEq

inductive JsonObj where
  | nil
  | cons (key : String) (value : Json) (tail : JsonObj)
deriving DecidableEq
end

def JsonList.toList : JsonList → List Json
  | .nil => []
  | .cons h t => h :: t.toList

def JsonList.ofList : List Json → JsonList
  | [] => .nil
  | h :: t => .cons h (JsonList.ofList t)

def JsonObj.ofList : List (String × Json) → JsonObj
  | [] => .nil
  | (k, v) :: t => .cons k v (JsonObj.ofList t)

/-- Convenience constructor for concrete JSON arrays. -/
def Json.list (items : List Json) : Json := Json.arr (JsonList.ofList items)

/-- Convenience constructor for concrete JSON objects. -/
def Json.dict (entries : List (String × Json)) : Json :=
  Json.obj (JsonObj.ofList entries)

/-- Lookup of a key in a Python dict (modelled as an association structure). -/
def jsonLookup : JsonObj → String → Option Json
  | .nil, _ => none
  | .cons k v rest, key => if k = key then some v else jsonLookup rest key

/-- The exceptions the embedded fragment distinguishes.  `keyError` is a
missing key on a dict; `typeError` is subscripting a non-dict
(`data["id"]` on a list/str/int); `attributeError` is calling `.get` on a
non-dict. -/
inductive PyExc where
  | keyError
  | typeError
  | attributeError
deriving DecidableEq

/-- Python `d[k]` for a string key: a value on dicts that have the key,
`KeyError` on dicts that do not, `TypeError` on anything that is not a
dict. -/
def pyGetItem (j : Json) (k : String) : Except PyExc Json :=
  match j with
  | .obj kvs =>
    match jsonLookup kvs k with
    | some v => .ok v
    | none => .error .keyError
  | _ => .error .typeError

/-- Python `d.get(k, default)`: total on dicts, `AttributeError` on
anything that is not a dict. -/
def pyGet (j : Json) (k : String) (default : Json) : Except PyExc Json :=
  match j with
  | .obj kvs => .ok ((jsonLookup kvs k).getD default)
  | _ => .error .attributeError

/-- Python `for x in j`: the elements of a list, the characters of a str,
the keys of a dict, `TypeError` otherwise. -/
def pyIter : Json → Except PyExc (List Json)
  | .arr xs => .ok xs.toList
  | .str s => .ok (s.toList.map (fun c => Json.str (String.mk [c])))
  | .obj kvs => .ok (JsonObjKeys kvs)
  | _ => .error .typeError
where
  JsonObjKeys : JsonObj → List Json
    | .nil => []
    | .cons k _ rest => Json.str k :: JsonObjKeys rest

/-- Python `str(v)` as used by the f-strings building permalinks/URLs.  In
every reachable use the interpolated value is a string; the rendering of
the other cases is abstracted. -/
def pyStr : Json → String
  | .null => "None"
  | .bool true => "True"
  | .bool false => "False"
  | .num n => toString n
  | .str s => s
  | .arr _ => "<list>"
  | .obj _ => "<dict>"

instance {ε α : Type} [DecidableEq ε] [DecidableEq α] : DecidableEq (Except ε α) := fun a b =>
  match a, b with
  | .ok x, .ok y =>
    if h : x = y then isTrue (by rw [h]) else isFalse (by simp [h])
  | .ok _, .error _ => isFalse (by simp)
  | .error _, .ok _ => isFalse (by simp)
  | .error x, .error y =>
    if h : x = y then isTrue (by rw [h]) else isFalse (by simp [h])

/-- The record built by `RedditFetcher._extract_post_data` (a Python dict;
field values are the raw JSON values stored there). -/
structure RedditPost where
  id : Json
  title : Json
  selftext : Json
  subreddit : Json
  author : Json
  score : Json
  num_comments : Json
  created_utc : Json
  permalink : String
  fetched_at : String
deriving DecidableEq

/-- The record built by `YouTubeFetcher._extract_video_data`. -/
structure YouTubeVideo where
  videoId : Json
  title : Json
  description : Json
  channelTitle : Json
  publishedAt : Json
  url : String
  fetched_at : String
deriving DecidableEq

/-- Body of the `try` block of `RedditFetcher._extract_post_data`
(src/collect.py lines 69-82), with the dict-literal fields evaluated in
source order. -/
def extractPostDataCore (now : String) (post_data : Json) : Except PyExc RedditPost := do
  let data ← pyGetItem post_data "data"
  let idv ← pyGetItem data "id"
  let titlev ← pyGetItem data "title"
  let selftextv ← pyGet data "selftext" (Json.str "")
  let subredditv ← pyGetItem data "subreddit"
  let authorv ← pyGet data "author" (Json.str "[deleted]")
  let scorev ← pyGet data "score" (Json.num 0)
  let ncv ← pyGet data "num_comments" (Json.num 0)
  let createdv ← pyGetItem data "created_utc"
  let permalinkv ← pyGetItem data "permalink"
  pure
    { id := idv, title := titlev, selftext := selftextv, subreddit := subredditv,
      author := authorv, score := scorev, num_comments := ncv, created_utc := createdv,
      permalink := "https://www.reddit.com" ++ pyStr permalinkv,
      fetched_at := now }

/-- Model of `RedditFetcher._extract_post_data` (src/collect.py lines 68-84):
`try: return {...} except KeyError: return None`.  A `KeyError` is caught
and turned into `None` (`Option.none`); any other exception escapes. -/
def extractPostData (now : String) (post_data : Json) : Except PyExc (Option RedditPost) :=
  match extractPostDataCore now post_data with
  | .ok r => .ok (some r)
  | .error .keyError => .ok none
  | .error e => .error e

/-- Body of the `try` block of `YouTubeFetcher._extract_video_data`
(src/collect.py lines 136-147). -/
def extractVideoDataCore (now : String) (item : Json) : Except PyExc YouTubeVideo := do
  let idobj ← pyGetItem item "id"
  let video_id ← pyGetItem idobj "videoId"
  let snippet ← pyGetItem item "snippet"
  let titlev ← pyGetItem snippet "title"
  let descriptionv ← pyGetItem snippet "description"
  let channelv ← pyGetItem snippet "channelTitle"
  let publishedv ← pyGetItem snippet "publishedAt"
  pure
    { videoId := video_id, title := titlev, description := descriptionv,
      channelTitle := channelv, publishedAt := publishedv,
      url := "https://www.youtube.com/watch?v=" ++ pyStr video_id,
      fetched_at := now }

/-- Model of `YouTubeFetcher._extract_video_data` (src/collect.py lines 135-149):
`try: return {...} except KeyError: return None`. -/
def extractVideoData (now : String) (item : Json) : Except PyExc (Option YouTubeVideo) :=
  match extractVideoDataCore now item with
  | .ok r => .ok (some r)
  | .error .keyError => .ok none
  | .error e => .error e

/-! ### The ranking-key order

`all_results.sort(key=..., reverse=True)` sorts by the raw JSON value of the
ranking key, descending, and is stable (CPython timsort).  `jsonLe` is a
total order on `Json`: on two numbers it is the numeric order and on two
strings the lexicographic order (the two cases a run with well-typed
payloads exercises — Reddit scores, YouTube `publishedAt` ISO strings);
values of different shapes are compared by an arbitrary fixed rank. -/

def jsonRank : Json → Nat
  | .null => 0
  | .bool _ => 1
  | .num _ => 2
  | .str _ => 3
  | .arr _ => 4
  | .obj _ => 5

def jsonLe (a b : Json) : Bool :=
  match a, b with
  | .num x, .num y => decide (x ≤ y)
  | .str x, .str y => decide (x ≤ y)
  | .bool x, .bool y => !x || y
  | a, b => decide (jsonRank a ≤ jsonRank b)

/-- Sorting a record list by a `Json`-valued key, descending and stable:
the semantics of `l.sort(key=..., reverse=True)`. -/
def keyDescRel (key : α → Json) : α → α → Prop :=
  fun a b => jsonLe (key b) (key a) = true

instance (key : α → Json) : DecidableRel (keyDescRel key) :=
  fun a b => decidable_of_iff (jsonLe (key b) (key a) = true) Iff.rfl

def sortKeyDesc (key : α → Json) (l : List α) : List α :=
  l.insertionSort (keyDescRel key)

/-! ### The fetch loops

`fetch_reddit_posts` (src/collect.py lines 86-125) and
`fetch_youtube_videos` (lines 151-199) iterate over the configured query
targets; for each target they issue one request, skip the target on a
non-200 status or on any exception, and otherwise run the per-item
extract/dedupe loop.  An exception inside the per-item loop (an extractor
raising on a wrong-shaped item) is caught by the same per-target handler,
so it aborts the remaining items of that target only. -/

inductive TargetOutcome where
  | exc
  | response (status : Nat) (body : Json)

/-- The per-item loop (lines 111-115 / 186-190): extract, drop absent
records, drop records whose identity key was already seen, otherwise
append and mark seen.  An escaping extractor exception ends this target's
loop (it propagates to the per-target `except`). -/
def itemsLoop (extract : Json → Except PyExc (Option α)) (key : α → Json) :
    List Json → List α → List Json → List α × List Json
  | [], acc, seen => (acc, seen)
  | item :: rest, acc, seen =>
    match extract item with
    | .error _ => (acc, seen)
    | .ok none => itemsLoop extract key rest acc seen
    | .ok (some r) =>
      if key r ∈ seen then itemsLoop extract key rest acc seen
      else itemsLoop extract key rest (acc ++ [r]) (seen ++ [key r])

/-- The per-target loop shared by both fetchers.  `parse` turns a parsed
response body into the list of raw items (`data.get(...)` chains plus
iteration); `req t` records the request parameters sent for target `t`
(built before the request is issued, hence recorded on every branch);
`net i` is the outcome of the i-th HTTP request. -/
def targetsLoop (parse : Json → Except PyExc (List Json))
    (extract : Json → Except PyExc (Option α)) (key : α → Json)
    (req : σ → ρ) (net : Nat → TargetOutcome) :
    List σ → Nat → List α → List Json → List ρ → List α × List Json × List ρ
  | [], _, acc, seen, reqs => (acc, seen, reqs)
  | t :: rest, i, acc, seen, reqs =>
    match net i with
    | .exc => targetsLoop parse extract key req net rest (i + 1) acc seen (reqs ++ [req t])
    | .response status body =>
      if status ≠ 200 then
        targetsLoop parse extract key req net rest (i + 1) acc seen (reqs ++ [req t])
      else
        match parse body with
        | .error _ => targetsLoop parse extract key req net rest (i + 1) acc seen (reqs ++ [req t])
        | .ok items =>
          let st := itemsLoop extract key items acc seen
          targetsLoop parse extract key req net rest (i + 1) st.1 st.2 (reqs ++ [req t])

/-- Reddit: `data.get("data", {}).get("children", [])` (line 109), then
iteration over the result. -/
def redditChildren (body : Json) : Except PyExc (List Json) := do
  let d ← pyGet body "data" (Json.dict [])
  let c ← pyGet d "children" (Json.list [])
  pyIter c

/-- YouTube: `data.get("items", [])` (line 186), then iteration. -/
def youtubeItems (body : Json) : Except PyExc (List Json) := do
  let it ← pyGet body "items" (Json.list [])
  pyIter it

/-! ### Statement vocabulary: the record stream and first-occurrence dedup -/

/-- The records the extractor produces from one target's item list, in item
order; an escaping extractor exception ends the target's stream. -/
def extractedRecs (extract : Json → Except PyExc (Option α)) : List Json → List α
  | [] => []
  | item :: rest =>
    match extract item with
    | .error _ => []
    | .ok none => extractedRecs extract rest
    | .ok (some r) => r :: extractedRecs extract rest

/-- The full stream of extracted records of a fetch, in query-target order
then item order (targets whose request fails or returns non-200 contribute
nothing). -/
def targetStream (parse : Json → Except PyExc (List Json))
    (extract : Json → Except PyExc (Option α)) (net : Nat → TargetOutcome) :
    List σ → Nat → List α
  | [], _ => []
  | _ :: rest, i =>
    (match net i with
     | .exc => []
     | .response status body =>
       if status ≠ 200 then []
       else
         match parse body with
         | .error _ => []
         | .ok items => extractedRecs extract items) ++
      targetStream parse extract net rest (i + 1)

/-- First-occurrence-wins deduplication by identity key, starting from a
set of already-seen keys. -/
def dedupFirst (key : α → Json) : List Json → List α → List α
  | _, [] => []
  | seen, r :: rest =>
    if key r ∈ seen then dedupFirst key seen rest
    else r :: dedupFirst key (seen ++ [key r]) rest

/-! ### The two fetch functions -/

/-- Settings for the Reddit source (`config["sources"]["reddit"]`):
`enabled` and the `subreddits` query-target list. -/
structure RedditSourceConfig where
  enabled : Bool
  subreddits : List String
deriving DecidableEq

/-- Settings for the YouTube source (`config["sources"]["youtube"]`):
`enabled` and the `search_terms` query-target list. -/
structure YouTubeSourceConfig where
  enabled : Bool
  search_terms : List String
deriving DecidableEq

/-- Model of `RedditFetcher.fetch_reddit_posts` (src/collect.py lines 86-125).
Returns `[]` if the source is disabled or no subreddits are configured;
otherwise runs the per-target loop over the subreddits (one request each,
page-size cap fixed at 25, recorded as the request parameter), then sorts
the accumulated records by `score` descending (stable) and truncates to
`max_items`. -/
def fetch_reddit_posts (cfg : RedditSourceConfig) (now : String)
    (net : Nat → TargetOutcome) (max_items : Nat) : List RedditPost :=
  if cfg.enabled = false then []
  else if cfg.subreddits = [] then []
  else
    let st := targetsLoop redditChildren (extractPostData now) RedditPost.id
      (fun _ => (25 : Nat)) net cfg.subreddits 0 [] [] []
    (sortKeyDesc RedditPost.score st.1).take max_items

/-- Model of `YouTubeFetcher.fetch_youtube_videos` (src/collect.py lines 151-199).
Same shape as the Reddit fetch; the per-term request parameter is the pair
(search term, `maxResults`), with `maxResults = max_items // len(search_terms)`
(line 170), and the ranking key is `publishedAt`.  The second component of
the result is the list of request parameters issued, one per search term,
in order — instrumentation for stating what is sent to the provider. -/
def fetch_youtube_videos (cfg : YouTubeSourceConfig) (now : String)
    (net : Nat → TargetOutcome) (max_items : Nat) :
    List YouTubeVideo × List (String × Nat) :=
  if cfg.enabled = false then ([], [])
  else if cfg.search_terms = [] then ([], [])
  else
    let st := targetsLoop youtubeItems (extractVideoData now) YouTubeVideo.videoId
      (fun term => (term, max_items / cfg.search_terms.length)) net cfg.search_terms 0 [] [] []
    ((sortKeyDesc YouTubeVideo.publishedAt st.1).take max_items, st.2.2)

/-- The Reddit record stream of a fetch run, as a standalone expression. -/
def redditStream (cfg : RedditSourceConfig) (now : String)
    (net : Nat → TargetOutcome) : List RedditPost :=
  targetStream redditChildren (extractPostData now) net cfg.subreddits 0

/-- The YouTube record stream of a fetch run. -/
def youtubeStream (cfg : YouTubeSourceConfig) (now : String)
    (net : Nat → TargetOutcome) : List YouTubeVideo :=
  targetStream youtubeItems (extractVideoData now) net cfg.search_terms 0

/-! ### Aggregator, snapshot assembly, construction and entry point -/

/-- The settings consumed by the collector: the two per-source configs and
`run.max_items_per_source` (default 20 is applied at the read site, line
221; the model receives the resolved value). -/
structure Config where
  reddit : RedditSourceConfig
  youtube : YouTubeSourceConfig
  max_items_per_source : Nat
deriving DecidableEq

/-- One value of the collection-result mapping: a YouTube list or a Reddit
list (`Dict[str, List[Dict]]` in the source). -/
inductive SourceEntry where
  | youtube (items : List YouTubeVideo)
  | reddit (items : List RedditPost)
deriving DecidableEq

def SourceEntry.count : SourceEntry → Nat
  | .youtube l => l.length
  | .reddit l => l.length

/-- Model of `DataCollector.collect_all_data` (src/collect.py lines 219-241).  The
two fetch calls are passed as `Except`-valued oracles because a fetch call
can raise (the sort raises `TypeError` on incomparable ranking keys, for
instance); a raising call is caught and recorded as an empty list.  The
result is the insertion-ordered dict: YouTube first, then Reddit, each
present only if enabled. -/
def collect_all_data (cfg : Config)
    (ytCall : Except Unit (List YouTubeVideo))
    (rdCall : Except Unit (List RedditPost)) : List (String × SourceEntry) :=
  (if cfg.youtube.enabled then
    [("youtube", SourceEntry.youtube (match ytCall with | .ok v => v | .error _ => []))]
   else []) ++
  (if cfg.reddit.enabled then
    [("reddit", SourceEntry.reddit (match rdCall with | .ok v => v | .error _ => []))]
   else [])

/-- The persisted artifact of `DataCollector.save_json`
(src/collect.py lines 243-253): metadata plus the data mapping.  The file
writing and the timestamp-derived filename are not modelled; the structure
holds exactly what is serialized. -/
structure Snapshot (α : Type) where
  total_items : Nat
  sources : List (String × Nat)
  fetched_at : String
  data : List (String × List α)
deriving DecidableEq

/-- Model of `DataCollector.save_json` (lines 243-253): `total_items` is the sum of
the value lengths, `sources` maps each source to its length, `data` is the
input mapping unchanged. -/
def save_json (data : List (String × List α)) (now : String) : Snapshot α :=
  { total_items := (data.map (fun p => p.2.length)).sum,
    sources := data.map (fun p => (p.1, p.2.length)),
    fetched_at := now,
    data := data }

/-- The credential environment variables read at fetcher construction. -/
structure Env where
  youtube_api_key : Option String
  reddit_client_id : Option String
  reddit_client_secret : Option String
deriving DecidableEq

/-- Python truthiness of `os.environ.get(...)`: `None` and the empty
string are falsy. -/
def truthy : Option String → Bool
  | none => false
  | some s => !s.isEmpty

/-- The construction-time failures of `DataCollector.__init__`. -/
inductive InitError where
  | configMissing
  | youtubeKeyMissing
  | redditCredsMissing
  | redditAuthFailed (status : Nat)
deriving DecidableEq

/-- Model of `YouTubeFetcher.__init__` (lines 128-133): raises `ValueError` when
`YOUTUBE_API_KEY` is unset or empty. -/
def youtubeFetcherInit (env : Env) : Except InitError Unit :=
  if !truthy env.youtube_api_key then .error .youtubeKeyMissing else .ok ()

/-- Model of `RedditFetcher.__init__` and `_authenticate` (lines 29-66): raises
`RedditAPIError` when either credential is unset/empty or when the token
exchange does not answer 200 (`tokenStatus` is the token endpoint's
response status). -/
def redditFetcherInit (env : Env) (tokenStatus : Nat) : Except InitError Unit :=
  if !truthy env.reddit_client_id || !truthy env.reddit_client_secret then
    .error .redditCredsMissing
  else if tokenStatus = 200 then .ok ()
  else .error (.redditAuthFailed tokenStatus)

/-- Model of `DataCollector.__init__` (lines 202-210): load the config (abort when
the file is missing), then construct the YouTube fetcher, then the Reddit
fetcher — with no exception handling, so the first construction failure
aborts the whole collector construction. -/
def dataCollectorInit (configFile : Option Config) (env : Env) (tokenStatus : Nat) :
    Except InitError Config :=
  match configFile with
  | none => .error .configMissing
  | some cfg =>
    (youtubeFetcherInit env).bind fun _ =>
      (redditFetcherInit env tokenStatus).bind fun _ =>
        .ok cfg

/-- The observable outcome of one `main` run: the process exit code, and
the collection result when the run got as far as collecting (`none` when
construction aborted the run). -/
structure RunOutcome where
  exitCode : Nat
  collected : Option (List (String × SourceEntry))
deriving DecidableEq

/-- Model of `main` (src/collect.py lines 265-289; named `mainRun` since Lean
reserves `main` for executables): construct the collector inside
a `try` whose handler prints the error and returns 1; on success collect
all data and return 0 (whether or not anything was collected). -/
def mainRun (configFile : Option Config) (env : Env) (tokenStatus : Nat)
    (ytCall : Except Unit (List YouTubeVideo)) (rdCall : Except Unit (List RedditPost)) :
    RunOutcome :=
  match dataCollectorInit configFile env tokenStatus with
  | .error _ => { exitCode := 1, collected := none }
  | .ok cfg => { exitCode := 0, collected := some (collect_all_data cfg ytCall rdCall) }

/-! ### Concrete sample data used by witnesses and counterexamples -/

/-- A raw Reddit post item with the given id and score (all required
fields present). -/
def samplePostItem (idv : String) (score : Int) : Json :=
  Json.dict [("data", Json.dict
    [("id", Json.str idv), ("title", Json.str "T"), ("subreddit", Json.str "s"),
     ("created_utc", Json.num 0), ("permalink", Json.str "/p"),
     ("score", Json.num score)])]

/-- A Reddit listing body wrapping the given post items. -/
def sampleListing (posts : List Json) : Json :=
  Json.dict [("data", Json.dict [("children", Json.list posts)])]

def sampleRedditCfg : RedditSourceConfig := { enabled := true, subreddits := ["a", "b"] }

def sampleYtCfg : YouTubeSourceConfig := { enabled := true, search_terms := ["a", "b"] }

/-- A network where every request raises. -/
def netAllExc : Nat → TargetOutcome := fun _ => .exc

/-- Two Reddit targets: the first returns ids x (score 5) and y (score 9),
the second returns a duplicate y (score 99) and z (score 1). -/
def netRedditDup : Nat → TargetOutcome := fun i =>
  if i = 0 then .response 200 (sampleListing [samplePostItem "x" 5, samplePostItem "y" 9])
  else .response 200 (sampleListing [samplePostItem "y" 99, samplePostItem "z" 1])

/-- The record extracted from the first occurrence of id y (score 9). -/
def samplePostY : RedditPost :=
  { id := Json.str "y", title := Json.str "T", selftext := Json.str "",
    subreddit := Json.str "s", author := Json.str "[deleted]",
    score := Json.num 9, num_comments := Json.num 0, created_utc := Json.num 0,
    permalink := "https://www.reddit.com/p", fetched_at := "t" }

/-- Concrete `data` dict used by the C6 witness: all required Reddit
fields present, all optional ones absent. -/
def sampleDataKvs : JsonObj :=
  JsonObj.ofList
    [("id", Json.str "i"), ("title", Json.str "T"), ("subreddit", Json.str "s"),
     ("created_utc", Json.num 1), ("permalink", Json.str "/x")]

/-- Concrete raw item wrapping `sampleDataKvs`. -/
def sampleItemKvs : JsonObj := JsonObj.ofList [("data", Json.obj sampleDataKvs)]

/-- Settings with both sources enabled. -/
def sampleConfigBoth : Config :=
  { reddit := sampleRedditCfg, youtube := sampleYtCfg, max_items_per_source := 20 }

/-- Environment with working Reddit credentials but no YouTube API key. -/
def envNoYtKey : Env :=
  { youtube_api_key := none, reddit_client_id := some "cid",
    reddit_client_secret := some "sec" }

/-- Environment with a YouTube key but no Reddit client id. -/
def envNoRedditId : Env :=
  { youtube_api_key := some "k", reddit_client_id := none,
    reddit_client_secret := some "sec" }

/-- Every Reddit request returns the single post x (score 5). -/
def netRedditOne : Nat → TargetOutcome := fun _ =>
  .response 200 (sampleListing [samplePostItem "x" 5])

/-- The record extracted from post x. -/
def samplePostX : RedditPost :=
  { id := Json.str "x", title := Json.str "T", selftext := Json.str "",
    subreddit := Json.str "s", author := Json.str "[deleted]",
    score := Json.num 5, num_comments := Json.num 0, created_utc := Json.num 0,
    permalink := "https://www.reddit.com/p", fetched_at := "t" }

/-- A raw YouTube search item with the given video id. -/
def sampleVideoItem (idv : String) : Json :=
  Json.dict [("id", Json.dict [("videoId", Json.str idv)]),
    ("snippet", Json.dict
      [("title", Json.str "T"), ("description", Json.str "D"),
       ("channelTitle", Json.str "C"), ("publishedAt", Json.str "2024")])]

/-- A YouTube search response body wrapping the given items. -/
def sampleSearch (items : List Json) : Json :=
  Json.dict [("items", Json.list items)]

/-- Every YouTube request returns the single video v. -/
def netYoutubeOne : Nat → TargetOutcome := fun _ =>
  .response 200 (sampleSearch [sampleVideoItem "v"])

/-- Two successive calls of `fetch_reddit_posts` on one fetcher object:
the method keeps no state on `self` (its accumulators are locals,
src/collect.py lines 94-95), so the calls are independent. -/
def twoRedditFetchCalls (cfg : RedditSourceConfig) (now1 now2 : String)
    (net1 net2 : Nat → TargetOutcome) (mi1 mi2 : Nat) :
    List RedditPost × List RedditPost :=
  (fetch_reddit_posts cfg now1 net1 mi1, fetch_reddit_posts cfg now2 net2 mi2)

/-- Two successive calls of `fetch_youtube_videos` (accumulator locals at
lines 161-162); only the returned video lists. -/
def twoYoutubeFetchCalls (cfg : YouTubeSourceConfig) (now1 now2 : String)
    (net1 net2 : Nat → TargetOutcome) (mi1 mi2 : Nat) :
    List YouTubeVideo × List YouTubeVideo :=
  ((fetch_youtube_videos cfg now1 net1 mi1).1, (fetch_youtube_videos cfg now2 net2 mi2).1)

/-! ### Theorems -/

theorem jsonLe_refl (a : Json) : jsonLe a a = true := by
  cases a <;> simp [jsonLe]

theorem jsonLe_total (a b : Json) : jsonLe a b = true ∨ jsonLe b a = true := by
  cases a <;> cases b <;> simp [jsonLe, jsonRank] <;>
    first
      | omega
      | exact Int.le_total _ _
      | exact le_total _ _
      | (rename_i x y; cases x <;> cases y <;> simp)

theorem jsonLe_trans {a b c : Json} (hab : jsonLe a b = true) (hbc : jsonLe b c = true) :
    jsonLe a c = true := by
  cases a <;> cases b <;> cases c <;>
    simp only [jsonLe, jsonRank, decide_eq_true_eq] at * <;>
    first
      | rfl
      | omega
      | exact le_trans hab hbc
      | (rename_i x y z; cases x <;> cases y <;> cases z <;> simp_all)

theorem sortKeyDesc_perm (key : α → Json) (l : List α) :
    (sortKeyDesc key l).Perm l :=
  List.perm_insertionSort _ l

theorem sortKeyDesc_sorted (key : α → Json) (l : List α) :
    (sortKeyDesc key l).Pairwise (fun a b => jsonLe (key b) (key a) = true) := by
  haveI : IsTotal α (keyDescRel key) :=
    ⟨fun a b => (jsonLe_total (key b) (key a)).imp id id⟩
  haveI : IsTrans α (keyDescRel key) :=
    ⟨fun _ _ _ hab hbc => jsonLe_trans hbc hab⟩
  exact List.sorted_insertionSort (keyDescRel key) l

theorem orderedInsert_filter_key (key : α → Json) (k : Json) (a : α) (l : List α) :
    (l.orderedInsert (keyDescRel key) a).filter (fun x => decide (key x = k)) =
      if key a = k then a :: l.filter (fun x => decide (key x = k))
      else l.filter (fun x => decide (key x = k)) := by
  induction l with
  | nil =>
    by_cases hk : key a = k <;> simp [List.orderedInsert, List.filter, hk]
  | cons b bs ih =>
    by_cases hr : keyDescRel key a b
    · rw [List.orderedInsert, if_pos hr]
      by_cases hk : key a = k <;> simp [List.filter, hk]
    · rw [List.orderedInsert, if_neg hr]
      by_cases hbk : key b = k
      · have hak : ¬ key a = k := by
          intro hak
          exact hr (by simp only [keyDescRel, hbk, hak, jsonLe_refl])
        simp [List.filter, hbk, hak, ih]
      · by_cases hak : key a = k <;> simp [List.filter, hbk, hak, ih]

/-- Stability of the sort: the records with a given ranking-key value appear
in the sorted list in the same relative order as in the input list. -/
theorem sortKeyDesc_filter_key (key : α → Json) (k : Json) (l : List α) :
    (sortKeyDesc key l).filter (fun x => decide (key x = k)) =
      l.filter (fun x => decide (key x = k)) := by
  induction l with
  | nil => rfl
  | cons a as ih =>
    show ((List.insertionSort _ as).orderedInsert _ a).filter _ = _
    rw [orderedInsert_filter_key]
    by_cases hk : key a = k <;> simp [hk, List.filter] <;> exact ih

theorem filter_take_eq_take_filter (p : α → Bool) (l : List α) (n : Nat) :
    ∃ m, (l.take n).filter p = (l.filter p).take m := by
  induction l generalizing n with
  | nil => exact ⟨0, by simp⟩
  | cons a as ih =>
    cases n with
    | zero => exact ⟨0, by simp⟩
    | succ n' =>
      obtain ⟨m, hm⟩ := ih n'
      by_cases hp : p a
      · exact ⟨m + 1, by simp [hp, hm, List.filter]⟩
      · exact ⟨m, by simp [hp, hm, List.filter]⟩

theorem dedupFirst_append (key : α → Json) (l₁ l₂ : List α) (seen : List Json) :
    dedupFirst key seen (l₁ ++ l₂) =
      dedupFirst key seen l₁ ++
        dedupFirst key (seen ++ (dedupFirst key seen l₁).map key) l₂ := by
  induction l₁ generalizing seen with
  | nil => simp [dedupFirst]
  | cons r l₁ ih =>
    by_cases h : key r ∈ seen
    · show dedupFirst key seen (r :: (l₁ ++ l₂)) = _
      rw [dedupFirst, if_pos h, dedupFirst, if_pos h, ih]
    · show dedupFirst key seen (r :: (l₁ ++ l₂)) = _
      rw [dedupFirst, if_neg h, dedupFirst, if_neg h, ih]
      simp [List.append_assoc]

/-- The per-item loop is first-occurrence dedup of the extracted-record
stream, appended onto the running accumulators. -/
theorem itemsLoop_eq (extract : Json → Except PyExc (Option α)) (key : α → Json)
    (items : List Json) (acc : List α) (seen : List Json) :
    itemsLoop extract key items acc seen =
      (acc ++ dedupFirst key seen (extractedRecs extract items),
       seen ++ (dedupFirst key seen (extractedRecs extract items)).map key) := by
  induction items generalizing acc seen with
  | nil => simp [itemsLoop, extractedRecs, dedupFirst]
  | cons item rest ih =>
    cases hx : extract item with
    | error e => simp [itemsLoop, extractedRecs, hx, dedupFirst]
    | ok o =>
      cases o with
      | none => simp only [itemsLoop, extractedRecs, hx]; exact ih acc seen
      | some r =>
        by_cases h : key r ∈ seen
        · simp [itemsLoop, extractedRecs, hx, dedupFirst, h, ih]
        · simp [itemsLoop, extractedRecs, hx, dedupFirst, h, ih, List.append_assoc]

/-- The per-target loop is first-occurrence dedup of the full record
stream; the third component records one request per query target. -/
theorem targetsLoop_eq (parse : Json → Except PyExc (List Json))
    (extract : Json → Except PyExc (Option α)) (key : α → Json)
    (req : σ → ρ) (net : Nat → TargetOutcome) (targets : List σ) (i : Nat)
    (acc : List α) (seen : List Json) (reqs : List ρ) :
    targetsLoop parse extract key req net targets i acc seen reqs =
      (acc ++ dedupFirst key seen (targetStream parse extract net targets i),
       seen ++ (dedupFirst key seen (targetStream parse extract net targets i)).map key,
       reqs ++ targets.map req) := by
  induction targets generalizing i acc seen reqs with
  | nil => simp [targetsLoop, targetStream, dedupFirst]
  | cons t rest ih =>
    cases hnet : net i with
    | exc =>
      simp only [targetsLoop, targetStream, hnet, List.map_cons]
      rw [ih]
      simp [dedupFirst, List.append_assoc]
    | response status body =>
      by_cases hs : status = 200
      · cases hp : parse body with
        | error e =>
          simp only [targetsLoop, targetStream, hnet, hs, List.map_cons, ne_eq,
            not_true_eq_false, if_false, hp]
          rw [ih]
          simp [dedupFirst, List.append_assoc]
        | ok items =>
          simp only [targetsLoop, targetStream, hnet, hs, List.map_cons, ne_eq,
            not_true_eq_false, if_false, hp]
          rw [itemsLoop_eq, ih]
          rw [dedupFirst_append, List.map_append, List.append_assoc, List.append_assoc,
            List.append_assoc]
          simp
      · simp only [targetsLoop, targetStream, hnet, List.map_cons, ne_eq, hs,
          not_false_eq_true, if_true]
        rw [ih]
        simp [dedupFirst, List.append_assoc]

/-- Keys of a deduplicated stream are distinct, and none of them was
already seen. -/
theorem dedupFirst_nodup_key (key : α → Json) :
    ∀ (seen : List Json) (l : List α),
      ((dedupFirst key seen l).map key).Nodup ∧
        ∀ r ∈ dedupFirst key seen l, key r ∉ seen
  | _, [] => by simp [dedupFirst]
  | seen, r :: rest => by
    by_cases h : key r ∈ seen
    · rw [dedupFirst, if_pos h]
      exact dedupFirst_nodup_key key seen rest
    · rw [dedupFirst, if_neg h]
      obtain ⟨hnd, hns⟩ := dedupFirst_nodup_key key (seen ++ [key r]) rest
      refine ⟨List.nodup_cons.mpr ⟨?_, hnd⟩, ?_⟩
      · intro hmem
        obtain ⟨x, hx, hkx⟩ := List.mem_map.mp hmem
        exact hns x hx (by simp [hkx])
      · intro x hx
        rcases List.mem_cons.mp hx with hx | hx
        · exact hx ▸ h
        · intro hseen
          exact hns x hx (by simp [hseen])

/-- Every record kept by first-occurrence dedup is the first record of the
stream bearing its identity key. -/
theorem dedupFirst_find? (key : α → Json) :
    ∀ (seen : List Json) (l : List α) (r : α), r ∈ dedupFirst key seen l →
      key r ∉ seen ∧ l.find? (fun x => decide (key x = key r)) = some r
  | _, [], r => by simp [dedupFirst]
  | seen, x :: rest, r => by
    intro hr
    by_cases h : key x ∈ seen
    · rw [dedupFirst, if_pos h] at hr
      obtain ⟨hns, hfind⟩ := dedupFirst_find? key seen rest r hr
      have hxk : ¬ (key x = key r) := fun he => hns (he ▸ h)
      refine ⟨hns, ?_⟩
      rw [List.find?_cons_of_neg _ (by simpa using hxk)]
      exact hfind
    · rw [dedupFirst, if_neg h] at hr
      rcases List.mem_cons.mp hr with hr | hr
      · subst hr
        exact ⟨h, List.find?_cons_of_pos _ (by simp)⟩
      · obtain ⟨hns, hfind⟩ := dedupFirst_find? key (seen ++ [key x]) rest r hr
        have hxk : ¬ (key x = key r) := by
          intro he
          exact hns (by simp [he])
        refine ⟨fun hseen => hns (by simp [hseen]), ?_⟩
        rw [List.find?_cons_of_neg _ (by simpa using hxk)]
        exact hfind

theorem fetch_reddit_posts_eq (cfg : RedditSourceConfig) (now : String)
    (net : Nat → TargetOutcome) (max_items : Nat)
    (he : cfg.enabled = true) (hs : cfg.subreddits ≠ []) :
    fetch_reddit_posts cfg now net max_items =
      (sortKeyDesc RedditPost.score
        (dedupFirst RedditPost.id [] (redditStream cfg now net))).take max_items := by
  rw [fetch_reddit_posts, if_neg (by simp [he]), if_neg hs, targetsLoop_eq]
  rfl

theorem fetch_youtube_videos_eq (cfg : YouTubeSourceConfig) (now : String)
    (net : Nat → TargetOutcome) (max_items : Nat)
    (he : cfg.enabled = true) (hs : cfg.search_terms ≠ []) :
    fetch_youtube_videos cfg now net max_items =
      ((sortKeyDesc YouTubeVideo.publishedAt
          (dedupFirst YouTubeVideo.videoId [] (youtubeStream cfg now net))).take max_items,
       cfg.search_terms.map (fun term => (term, max_items / cfg.search_terms.length))) := by
  rw [fetch_youtube_videos, if_neg (by simp [he]), if_neg hs, targetsLoop_eq]
  rfl

/-- C2: for every invocation of `fetch_reddit_posts` or
`fetch_youtube_videos` with any requested `max_items`, and for any
network responses, the length of the returned list is at most
`max_items`. -/
theorem fetch_length_le_max_items (rcfg : RedditSourceConfig) (ycfg : YouTubeSourceConfig)
    (now now' : String) (rnet ynet : Nat → TargetOutcome) (max_items : Nat) :
    (fetch_reddit_posts rcfg now rnet max_items).length ≤ max_items ∧
      (fetch_youtube_videos ycfg now' ynet max_items).1.length ≤ max_items := by
  constructor
  · rw [fetch_reddit_posts]
    split
    · simp
    · split
      · simp
      · exact List.length_take_le _ _
  · rw [fetch_youtube_videos]
    split
    · simp
    · split
      · simp
      · exact List.length_take_le _ _

/-- C8: the snapshot metadata built by `save_json` is consistent:
`total_items` is the sum of the per-source counts, each per-source count
is the length of that source's sequence in the data section, and exactly
the sources of the input mapping appear in `metadata.sources` and in
`data`. -/
theorem save_json_metadata_consistent {α : Type} (data : List (String × List α)) (now : String) :
    (save_json data now).total_items = ((save_json data now).sources.map Prod.snd).sum ∧
      (save_json data now).sources =
        (save_json data now).data.map (fun p => (p.1, p.2.length)) ∧
      (save_json data now).sources.map Prod.fst = data.map Prod.fst ∧
      (save_json data now).data = data := by
  refine ⟨?_, rfl, ?_, rfl⟩
  · simp only [save_json, List.map_map]
    rfl
  · simp only [save_json, List.map_map]
    rfl

/-- C9: when the YouTube source is enabled with a non-empty list of n
search terms, the `maxResults` cap sent with each of the n requests is
`max_items / n` (Python `max_items // len(search_terms)`), the same value
for every term. -/
theorem youtube_per_query_cap (cfg : YouTubeSourceConfig) (now : String)
    (net : Nat → TargetOutcome) (max_items : Nat)
    (he : cfg.enabled = true) (hs : cfg.search_terms ≠ []) :
    (fetch_youtube_videos cfg now net max_items).2 =
        cfg.search_terms.map (fun term => (term, max_items / cfg.search_terms.length)) ∧
      ∀ p ∈ (fetch_youtube_videos cfg now net max_items).2,
        p.2 = max_items / cfg.search_terms.length := by
  have h := fetch_youtube_videos_eq cfg now net max_items he hs
  constructor
  · rw [h]
  · intro p hp
    rw [h] at hp
    simp only at hp
    obtain ⟨t, _, ht⟩ := List.mem_map.mp hp
    rw [← ht]

/-- Witness for C9 at a concrete input: two search terms and
`max_items = 20` give every request the cap 10. -/
theorem youtube_per_query_cap_witness :
    (fetch_youtube_videos sampleYtCfg "t" netAllExc 20).2 = [("a", 10), ("b", 10)] :=
  ((youtube_per_query_cap sampleYtCfg "t" netAllExc 20 rfl (by decide)).1).trans (by decide)

/-- Key facts of the sort-then-truncate tail of both fetch pipelines:
identity keys stay distinct, and each returned record is the first record
of the stream with its identity key. -/
theorem pipeline_nodup_find (keyD keyS : α → Json) (stream : List α) (mi : Nat) :
    ((((sortKeyDesc keyS (dedupFirst keyD [] stream)).take mi).map keyD).Nodup) ∧
      ∀ r ∈ (sortKeyDesc keyS (dedupFirst keyD [] stream)).take mi,
        stream.find? (fun x => decide (keyD x = keyD r)) = some r := by
  have hnd : ((dedupFirst keyD [] stream).map keyD).Nodup :=
    (dedupFirst_nodup_key keyD [] stream).1
  have hperm := sortKeyDesc_perm keyS (dedupFirst keyD [] stream)
  constructor
  · rw [List.map_take]
    refine List.Nodup.sublist (List.take_sublist _ _) ?_
    exact ((hperm.map keyD).nodup_iff).mpr hnd
  · intro r hr
    have hr1 : r ∈ sortKeyDesc keyS (dedupFirst keyD [] stream) :=
      List.mem_of_mem_take hr
    have hr2 : r ∈ dedupFirst keyD [] stream := hperm.mem_iff.mp hr1
    exact (dedupFirst_find? keyD [] stream r hr2).2

/-- Order facts of the sort-then-truncate tail: ranking keys descend, and
for every key value the returned records with that ranking key are a
prefix (relative order intact) of the deduplicated stream's records with
that key. -/
theorem pipeline_sorted_stable (keyD keyS : α → Json) (stream : List α) (mi : Nat) :
    (((sortKeyDesc keyS (dedupFirst keyD [] stream)).take mi).Pairwise
        (fun a b => jsonLe (keyS b) (keyS a) = true)) ∧
      ∀ k, ∃ m,
        ((sortKeyDesc keyS (dedupFirst keyD [] stream)).take mi).filter
            (fun r => decide (keyS r = k)) =
          ((dedupFirst keyD [] stream).filter (fun r => decide (keyS r = k))).take m := by
  constructor
  · exact List.Pairwise.sublist (List.take_sublist _ _)
      (sortKeyDesc_sorted keyS (dedupFirst keyD [] stream))
  · intro k
    obtain ⟨m, hm⟩ := filter_take_eq_take_filter
      (fun r => decide (keyS r = k)) (sortKeyDesc keyS (dedupFirst keyD [] stream)) mi
    exact ⟨m, by rw [hm, sortKeyDesc_filter_key]⟩

/-- C1: in every fetch run, no two returned records share an identity key
(Reddit `id`, YouTube `videoId`), and each returned record is the one
extracted from the first occurrence of its identity key in the record
stream — query-target order, then item order — so later duplicates are
dropped even when they would rank higher. -/
theorem fetch_dedup_unique_first_occurrence
    (rcfg : RedditSourceConfig) (ycfg : YouTubeSourceConfig) (now : String)
    (rnet ynet : Nat → TargetOutcome) (mi : Nat) :
    (((fetch_reddit_posts rcfg now rnet mi).map RedditPost.id).Nodup ∧
      ∀ r ∈ fetch_reddit_posts rcfg now rnet mi,
        (redditStream rcfg now rnet).find? (fun x => decide (x.id = r.id)) = some r) ∧
    (((fetch_youtube_videos ycfg now ynet mi).1.map YouTubeVideo.videoId).Nodup ∧
      ∀ v ∈ (fetch_youtube_videos ycfg now ynet mi).1,
        (youtubeStream ycfg now ynet).find? (fun x => decide (x.videoId = v.videoId)) =
          some v) := by
  constructor
  · by_cases he : rcfg.enabled = true
    · by_cases hs : rcfg.subreddits = []
      · rw [fetch_reddit_posts, if_neg (by simp [he]), if_pos hs]
        simp
      · rw [fetch_reddit_posts_eq rcfg now rnet mi he hs]
        exact pipeline_nodup_find RedditPost.id RedditPost.score (redditStream rcfg now rnet) mi
    · rw [fetch_reddit_posts, if_pos (by revert he; cases rcfg.enabled <;> simp)]
      simp
  · by_cases he : ycfg.enabled = true
    · by_cases hs : ycfg.search_terms = []
      · rw [fetch_youtube_videos, if_neg (by simp [he]), if_pos hs]
        simp
      · rw [fetch_youtube_videos_eq ycfg now ynet mi he hs]
        exact pipeline_nodup_find YouTubeVideo.videoId YouTubeVideo.publishedAt
          (youtubeStream ycfg now ynet) mi
    · rw [fetch_youtube_videos, if_pos (by revert he; cases ycfg.enabled <;> simp)]
      simp

/-- Witness for C1: with two subreddits where id y appears in both targets
(score 9 first, score 99 later), the record kept for y is the first
occurrence. -/
theorem fetch_dedup_unique_first_occurrence_witness :
    samplePostY ∈ fetch_reddit_posts sampleRedditCfg "t" netRedditDup 2 ∧
      (redditStream sampleRedditCfg "t" netRedditDup).find?
        (fun x => decide (x.id = samplePostY.id)) = some samplePostY :=
  ⟨by decide,
   (fetch_dedup_unique_first_occurrence sampleRedditCfg sampleYtCfg "t"
      netRedditDup netAllExc 2).1.2 samplePostY (by decide)⟩

/-- C3: every fetch result is sorted descending by the source's ranking
key (Reddit `score`, YouTube `publishedAt`), and records with equal
ranking keys keep their relative insertion (first-occurrence) order: per
key value, the returned records are an order-preserving prefix of the
deduplicated stream. -/
theorem fetch_sorted_desc_stable
    (rcfg : RedditSourceConfig) (ycfg : YouTubeSourceConfig) (now : String)
    (rnet ynet : Nat → TargetOutcome) (mi : Nat) :
    ((fetch_reddit_posts rcfg now rnet mi).Pairwise
        (fun a b => jsonLe b.score a.score = true) ∧
      ∀ k, ∃ m,
        (fetch_reddit_posts rcfg now rnet mi).filter (fun r => decide (r.score = k)) =
          ((dedupFirst RedditPost.id [] (redditStream rcfg now rnet)).filter
            (fun r => decide (r.score = k))).take m) ∧
    ((fetch_youtube_videos ycfg now ynet mi).1.Pairwise
        (fun a b => jsonLe b.publishedAt a.publishedAt = true) ∧
      ∀ k, ∃ m,
        (fetch_youtube_videos ycfg now ynet mi).1.filter
            (fun v => decide (v.publishedAt = k)) =
          ((dedupFirst YouTubeVideo.videoId [] (youtubeStream ycfg now ynet)).filter
            (fun v => decide (v.publishedAt = k))).take m) := by
  constructor
  · by_cases he : rcfg.enabled = true
    · by_cases hs : rcfg.subreddits = []
      · rw [fetch_reddit_posts, if_neg (by simp [he]), if_pos hs]
        exact ⟨by simp, fun k => ⟨0, by simp⟩⟩
      · rw [fetch_reddit_posts_eq rcfg now rnet mi he hs]
        exact pipeline_sorted_stable RedditPost.id RedditPost.score
          (redditStream rcfg now rnet) mi
    · rw [fetch_reddit_posts, if_pos (by revert he; cases rcfg.enabled <;> simp)]
      exact ⟨by simp, fun k => ⟨0, by simp⟩⟩
  · by_cases he : ycfg.enabled = true
    · by_cases hs : ycfg.search_terms = []
      · rw [fetch_youtube_videos, if_neg (by simp [he]), if_pos hs]
        exact ⟨by simp, fun k => ⟨0, by simp⟩⟩
      · rw [fetch_youtube_videos_eq ycfg now ynet mi he hs]
        exact pipeline_sorted_stable YouTubeVideo.videoId YouTubeVideo.publishedAt
          (youtubeStream ycfg now ynet) mi
    · rw [fetch_youtube_videos, if_pos (by revert he; cases ycfg.enabled <;> simp)]
      exact ⟨by simp, fun k => ⟨0, by simp⟩⟩

theorem exceptBind_ok {ε α β : Type} (a : α) (f : α → Except ε β) :
    (Except.ok a : Except ε α) >>= f = f a := rfl

theorem exceptBind_error {ε α β : Type} (e : ε) (f : α → Except ε β) :
    (Except.error e : Except ε α) >>= f = Except.error e := rfl

/-- Counterexample to C5 as stated: on a wrong-type structure the
extractors do raise.  A raw item that is a list (not a dict) makes
`post_data["data"]` raise `TypeError` in `_extract_post_data`, and an
integer item makes `item["id"]` raise `TypeError` in
`_extract_video_data`; `except KeyError` catches neither. -/
theorem extractor_type_error_escapes_counterexample :
    extractPostData "t" (Json.list []) = .error .typeError ∧
      extractVideoData "t" (Json.num 0) = .error .typeError := by decide

/-- C5 amended: the extractors never propagate a missing-key error — a
`KeyError` on any required field is caught and yields an absent result —
but wrong-type structure raises a `TypeError`/`AttributeError` that
escapes the extractor (and is then caught by the fetch loop's per-target
handler, aborting that target's remaining items).  The two equations
show the missing-required-field case yielding `none`. -/
theorem extractors_catch_only_keyError (now : String) (item : Json) (kvs : JsonObj)
    (hdata : jsonLookup kvs "data" = none) (hid : jsonLookup kvs "id" = none) :
    extractPostData now item ≠ .error .keyError ∧
      extractVideoData now item ≠ .error .keyError ∧
      extractPostData now (Json.obj kvs) = .ok none ∧
      extractVideoData now (Json.obj kvs) = .ok none := by
  refine ⟨?_, ?_, ?_, ?_⟩
  · cases hc : extractPostDataCore now item with
    | ok r => rw [extractPostData, hc]; simp
    | error e => rw [extractPostData, hc]; cases e <;> simp
  · cases hc : extractVideoDataCore now item with
    | ok r => rw [extractVideoData, hc]; simp
    | error e => rw [extractVideoData, hc]; cases e <;> simp
  · have hc : extractPostDataCore now (Json.obj kvs) = .error .keyError := by
      rw [extractPostDataCore]
      simp [pyGetItem, hdata, exceptBind_error]
    rw [extractPostData, hc]
  · have hc : extractVideoDataCore now (Json.obj kvs) = .error .keyError := by
      rw [extractVideoDataCore]
      simp [pyGetItem, hid, exceptBind_error]
    rw [extractVideoData, hc]

/-- Witness for C5 (amended) at a concrete input: the empty dict misses
every required field and extracts to `None`. -/
theorem extractors_catch_only_keyError_witness :
    extractPostData "t" (Json.obj .nil) = .ok none ∧
      extractVideoData "t" (Json.obj .nil) = .ok none :=
  ⟨(extractors_catch_only_keyError "t" Json.null .nil rfl rfl).2.2.1,
   (extractors_catch_only_keyError "t" Json.null .nil rfl rfl).2.2.2⟩

/-- C6: on a raw item whose required fields are all present, the Reddit
extractor substitutes the documented default for each absent optional
field — empty string for `selftext`, `"[deleted]"` for `author`, 0 for
`score` and `num_comments` — and still produces a record.  (These four
are exactly the optional fields of the code: the YouTube extractor reads
all of its fields, `description` included, as required.) -/
theorem extractor_optional_fields_default (now : String)
    (ikvs dkvs : JsonObj) (vid vtitle vsub vcreated vperma : Json)
    (hdata : jsonLookup ikvs "data" = some (Json.obj dkvs))
    (hid : jsonLookup dkvs "id" = some vid)
    (htitle : jsonLookup dkvs "title" = some vtitle)
    (hsub : jsonLookup dkvs "subreddit" = some vsub)
    (hcreated : jsonLookup dkvs "created_utc" = some vcreated)
    (hperma : jsonLookup dkvs "permalink" = some vperma)
    (hself : jsonLookup dkvs "selftext" = none)
    (hauthor : jsonLookup dkvs "author" = none)
    (hscore : jsonLookup dkvs "score" = none)
    (hnc : jsonLookup dkvs "num_comments" = none) :
    extractPostData now (Json.obj ikvs) =
      .ok (some
        { id := vid, title := vtitle, selftext := Json.str "",
          subreddit := vsub, author := Json.str "[deleted]",
          score := Json.num 0, num_comments := Json.num 0,
          created_utc := vcreated,
          permalink := "https://www.reddit.com" ++ pyStr vperma,
          fetched_at := now }) := by
  have hc : extractPostDataCore now (Json.obj ikvs) =
      .ok { id := vid, title := vtitle, selftext := Json.str "",
            subreddit := vsub, author := Json.str "[deleted]",
            score := Json.num 0, num_comments := Json.num 0,
            created_utc := vcreated,
            permalink := "https://www.reddit.com" ++ pyStr vperma,
            fetched_at := now } := by
    rw [extractPostDataCore]
    simp [pyGetItem, pyGet, hdata, hid, htitle, hsub, hcreated, hperma, hself,
      hauthor, hscore, hnc, exceptBind_ok, Option.getD, pure, Except.pure]
  rw [extractPostData, hc]

/-- Witness for C6 at a concrete item. -/
theorem extractor_optional_fields_default_witness :
    extractPostData "t" (Json.obj sampleItemKvs) =
      .ok (some
        { id := Json.str "i", title := Json.str "T", selftext := Json.str "",
          subreddit := Json.str "s", author := Json.str "[deleted]",
          score := Json.num 0, num_comments := Json.num 0,
          created_utc := Json.num 1,
          permalink := "https://www.reddit.com" ++ pyStr (Json.str "/x"),
          fetched_at := "t" }) :=
  extractor_optional_fields_default "t" sampleItemKvs sampleDataKvs
    (Json.str "i") (Json.str "T") (Json.str "s") (Json.num 1) (Json.str "/x")
    (by decide) (by decide) (by decide) (by decide) (by decide) (by decide)
    (by decide) (by decide) (by decide) (by decide)

/-- C7: the collection result has a key for a source iff that source is
enabled; an enabled source whose fetch call raised is recorded as the
empty sequence, and an enabled source whose fetch returned a list (empty
or not) is recorded with exactly that list. -/
theorem collect_all_data_enabled_keys (cfg : Config)
    (ytCall : Except Unit (List YouTubeVideo)) (rdCall : Except Unit (List RedditPost)) :
    ("youtube" ∈ (collect_all_data cfg ytCall rdCall).map Prod.fst ↔
        cfg.youtube.enabled = true) ∧
      ("reddit" ∈ (collect_all_data cfg ytCall rdCall).map Prod.fst ↔
        cfg.reddit.enabled = true) ∧
      (cfg.youtube.enabled = true → ∀ e, ytCall = .error e →
        (collect_all_data cfg ytCall rdCall).lookup "youtube" =
          some (SourceEntry.youtube [])) ∧
      (cfg.reddit.enabled = true → ∀ e, rdCall = .error e →
        (collect_all_data cfg ytCall rdCall).lookup "reddit" =
          some (SourceEntry.reddit [])) ∧
      (cfg.youtube.enabled = true → ∀ v, ytCall = .ok v →
        (collect_all_data cfg ytCall rdCall).lookup "youtube" =
          some (SourceEntry.youtube v)) ∧
      (cfg.reddit.enabled = true → ∀ v, rdCall = .ok v →
        (collect_all_data cfg ytCall rdCall).lookup "reddit" =
          some (SourceEntry.reddit v)) := by
  refine ⟨?_, ?_, ?_, ?_, ?_, ?_⟩
  · cases hyt : cfg.youtube.enabled <;> cases hrd : cfg.reddit.enabled <;>
      simp [collect_all_data, hyt, hrd]
  · cases hyt : cfg.youtube.enabled <;> cases hrd : cfg.reddit.enabled <;>
      simp [collect_all_data, hyt, hrd]
  · intro hyt e he
    subst he
    cases hrd : cfg.reddit.enabled <;> simp [collect_all_data, hyt, hrd, List.lookup]
  · intro hrd e he
    subst he
    cases hyt : cfg.youtube.enabled <;> simp [collect_all_data, hyt, hrd, List.lookup]
  · intro hyt v hv
    subst hv
    cases hrd : cfg.reddit.enabled <;> simp [collect_all_data, hyt, hrd, List.lookup]
  · intro hrd v hv
    subst hv
    cases hyt : cfg.youtube.enabled <;> simp [collect_all_data, hyt, hrd, List.lookup]

/-- Witness for C7: both sources enabled, the YouTube call raising and
the Reddit call returning one post. -/
theorem collect_all_data_enabled_keys_witness :
    (collect_all_data sampleConfigBoth (.error ()) (.ok [samplePostY])).lookup "youtube" =
        some (SourceEntry.youtube []) ∧
      (collect_all_data sampleConfigBoth (.error ()) (.ok [samplePostY])).lookup "reddit" =
        some (SourceEntry.reddit [samplePostY]) :=
  ⟨(collect_all_data_enabled_keys sampleConfigBoth (.error ()) (.ok [samplePostY])).2.2.1
      rfl () rfl,
   (collect_all_data_enabled_keys sampleConfigBoth (.error ()) (.ok [samplePostY])).2.2.2.2.2
      rfl [samplePostY] rfl⟩

/-- Counterexample to C4 as stated: both sources enabled, working Reddit
credentials, only the YouTube API key missing.  `DataCollector.__init__`
constructs the fetchers with no exception handling (src/collect.py lines
209-210), so the `ValueError` aborts construction, `main` catches it and
exits 1: the run does not continue, Reddit is never fetched, and the
collection result does not exist (so there is no youtube ↦ [] entry
either), contradicting the claimed per-source isolation. -/
theorem construction_failure_not_isolated_counterexample :
    mainRun (some sampleConfigBoth) envNoYtKey 200 (.ok []) (.ok [samplePostY]) =
      { exitCode := 1, collected := none } := by decide

/-- C4 amended: a construction-time authentication failure of either
source fetcher (missing YouTube API key, missing Reddit credentials, or a
failed token exchange) is fatal for the whole collection run, not just
for that source: collector construction raises, `main` catches it and
exits 1, no source is fetched and no collection result is produced. -/
theorem construction_auth_failure_aborts_whole_run
    (cfg : Config) (env : Env) (tokenStatus : Nat)
    (ytCall : Except Unit (List YouTubeVideo)) (rdCall : Except Unit (List RedditPost))
    (h : truthy env.youtube_api_key = false ∨ truthy env.reddit_client_id = false ∨
         truthy env.reddit_client_secret = false ∨ tokenStatus ≠ 200) :
    mainRun (some cfg) env tokenStatus ytCall rdCall =
      { exitCode := 1, collected := none } := by
  have hinit : ∃ e, dataCollectorInit (some cfg) env tokenStatus = Except.error e := by
    rw [dataCollectorInit]
    cases hyt : truthy env.youtube_api_key with
    | false =>
      exact ⟨.youtubeKeyMissing, by simp [youtubeFetcherInit, hyt, Except.bind]⟩
    | true =>
      by_cases hcreds :
          (!truthy env.reddit_client_id || !truthy env.reddit_client_secret) = true
      · exact ⟨.redditCredsMissing, by
          simp [youtubeFetcherInit, hyt, redditFetcherInit, hcreds, Except.bind]⟩
      · have htok : tokenStatus ≠ 200 := by
          rcases h with h | h | h | h
          · rw [hyt] at h; exact absurd h (by simp)
          · exact absurd (by simp [h]) hcreds
          · exact absurd (by simp [h]) hcreds
          · exact h
        exact ⟨.redditAuthFailed tokenStatus, by
          simp [youtubeFetcherInit, hyt, redditFetcherInit, hcreds, htok, Except.bind]⟩
  obtain ⟨e, he⟩ := hinit
  rw [mainRun, he]

/-- Witness for C4 (amended): missing Reddit client id aborts the run
with exit code 1 and no collection result. -/
theorem construction_auth_failure_aborts_whole_run_witness :
    mainRun (some sampleConfigBoth) envNoRedditId 200 (.ok []) (.ok []) =
      { exitCode := 1, collected := none } :=
  construction_auth_failure_aborts_whole_run sampleConfigBoth envNoRedditId 200
    (.ok []) (.ok []) (Or.inr (Or.inl (by decide)))

/-- C10: deduplication state is local to a single fetch invocation — the
accumulators are re-initialized to empty on every call, so the second of
two successive calls on the same fetcher is the same as a fresh call, and
both calls can each return a record with the same identity key (x for
Reddit, v for YouTube below); no state from an earlier fetch affects a
later one. -/
theorem fetch_state_is_per_call :
    (∀ (cfg : RedditSourceConfig) (now1 now2 : String)
        (net1 net2 : Nat → TargetOutcome) (mi1 mi2 : Nat),
      (twoRedditFetchCalls cfg now1 now2 net1 net2 mi1 mi2).2 =
        fetch_reddit_posts cfg now2 net2 mi2) ∧
    (∀ (cfg : YouTubeSourceConfig) (now1 now2 : String)
        (net1 net2 : Nat → TargetOutcome) (mi1 mi2 : Nat),
      (twoYoutubeFetchCalls cfg now1 now2 net1 net2 mi1 mi2).2 =
        (fetch_youtube_videos cfg now2 net2 mi2).1) ∧
    ((twoRedditFetchCalls sampleRedditCfg "t" "t" netRedditOne netRedditOne 5 5).1.map
        RedditPost.id = [Json.str "x"] ∧
      (twoRedditFetchCalls sampleRedditCfg "t" "t" netRedditOne netRedditOne 5 5).2.map
        RedditPost.id = [Json.str "x"]) ∧
    ((twoYoutubeFetchCalls sampleYtCfg "t" "t" netYoutubeOne netYoutubeOne 5 5).1.map
        YouTubeVideo.videoId = [Json.str "v"] ∧
      (twoYoutubeFetchCalls sampleYtCfg "t" "t" netYoutubeOne netYoutubeOne 5 5).2.map
        YouTubeVideo.videoId = [Json.str "v"]) := by
  refine ⟨fun _ _ _ _ _ _ _ => rfl, fun _ _ _ _ _ _ _ => rfl, by decide, by decide⟩
